import Mathlib

/-
Verification of the geometry module of a GeoJSON library (src/geometry.rs).

The module defines a typed model (Value, Geometry) of the seven GeoJSON
geometry shapes and the bidirectional mapping between that model and a
generic JSON object representation (a BTreeMap from strings to JSON
values).  Serialization is `From<&Geometry> for JsonObject`; parsing is
`Geometry::from_object`.

Modelling decisions:
- JSON numbers are modelled as rationals.  The source stores `f64` and
  performs no arithmetic on coordinates, only structural copying and
  comparison, so an exact-number model preserves every claim considered
  here.
- `JsonObject` (a `BTreeMap<String, JsonValue>`) is modelled as an
  association list kept sorted by key; `minsert` models
  `BTreeMap::insert` (sorted insertion, replacement on an equal key) and
  `jlookup` models key lookup.
- The coordinate-extraction helpers (`util::get_coords_one_pos`, the 1d,
  2d and 3d variants, `get_geometries`, `get_bbox`, `get_crs`) and the
  `expect_type!` macro are not part of src/; they are modelled from the
  spec, as indicated on each definition.
-/

/-- Generic JSON value (the schema-less representation the module maps
to and from). -/
inductive JsonValue where
  | null : JsonValue
  | bool : Bool → JsonValue
  | num : ℚ → JsonValue
  | str : String → JsonValue
  | arr : List JsonValue → JsonValue
  | obj : List (String × JsonValue) → JsonValue

/-- A JSON object: `BTreeMap<String, JsonValue>`, modelled as an
association list sorted by key. -/
abbrev JsonObject := List (String × JsonValue)

/-- Key lookup in a JSON object (`BTreeMap::get`). -/
def jlookup (o : JsonObject) (k : String) : Option JsonValue :=
  match o with
  | [] => none
  | (k', v) :: rest => if k' = k then some v else jlookup rest k

/-- `BTreeMap::insert`: sorted insertion, replacing the value when the
key is already present. -/
def minsert (k : String) (v : JsonValue) (m : JsonObject) : JsonObject :=
  match m with
  | [] => [(k, v)]
  | (k', v') :: rest =>
    if k < k' then (k, v) :: (k', v') :: rest
    else if k = k' then (k, v) :: rest
    else (k', v') :: minsert k v rest

/-- A position: an ordered sequence of numbers (`PointType = Vec<f64>`
in the source crate). -/
abbrev PointType := List ℚ

/-- `LineStringType = Vec<PointType>`. -/
abbrev LineStringType := List PointType

/-- `PolygonType = Vec<LineStringType>`. -/
abbrev PolygonType := List LineStringType

/-- Bounding box metadata: structurally a flat numeric array
(`Bbox = Vec<f64>`); its internal correctness is not validated by this
module. -/
abbrev Bbox := List ℚ

/-- Coordinate-reference-system metadata: an opaque JSON object; its
internal correctness is not validated by this module. -/
abbrev Crs := JsonObject

/-- The error taxonomy surfaced by the parser.  `GeometryUnknownType`
appears literally in src/geometry.rs; the remaining kinds are modelled
from the spec taxonomy (InvalidTypeField, MalformedCoordinates,
MalformedBbox, MalformedCrs). -/
inductive Error where
  | GeometryUnknownType : Error
  | InvalidTypeField : Error
  | MalformedCoordinates : Error
  | MalformedBbox : Error
  | MalformedCrs : Error
deriving DecidableEq

mutual

/-- The underlying Geometry value: closed tagged union of the seven
shapes (enum `Value` in src/geometry.rs). -/
inductive Value where
  | Point : PointType → Value
  | MultiPoint : List PointType → Value
  | LineString : LineStringType → Value
  | MultiLineString : List LineStringType → Value
  | Polygon : PolygonType → Value
  | MultiPolygon : List PolygonType → Value
  | GeometryCollection : List Geometry → Value

/-- Geometry object: a Value together with optional bbox and crs
metadata (struct `Geometry` in src/geometry.rs). -/
inductive Geometry where
  | mk : Option Bbox → Value → Option Crs → Geometry

end

/-- Field projection `geometry.bbox`. -/
def Geometry.bbox : Geometry → Option Bbox
  | .mk b _ _ => b

/-- Field projection `geometry.value`. -/
def Geometry.value : Geometry → Value
  | .mk _ v _ => v

/-- Field projection `geometry.crs`. -/
def Geometry.crs : Geometry → Option Crs
  | .mk _ _ c => c

/-- `Geometry::new`: wraps a value with bbox and crs absent. -/
def Geometry.new (v : Value) : Geometry := .mk none v none

/-- The type discriminator string of each variant (the first `match` in
`From<&Geometry> for JsonObject`). -/
def typeName : Value → String
  | .Point _ => "Point"
  | .MultiPoint _ => "MultiPoint"
  | .LineString _ => "LineString"
  | .MultiLineString _ => "MultiLineString"
  | .Polygon _ => "Polygon"
  | .MultiPolygon _ => "MultiPolygon"
  | .GeometryCollection _ => "GeometryCollection"

/-- The payload key of each variant (the second `match` in
`From<&Geometry> for JsonObject`): `geometries` for
GeometryCollection, `coordinates` otherwise. -/
def payloadKey : Value → String
  | .GeometryCollection _ => "geometries"
  | _ => "coordinates"

/-- `json_val` on a position: a JSON array of numbers. -/
def posToJson (p : PointType) : JsonValue := .arr (p.map .num)

/-- `json_val` on a list of positions. -/
def posListToJson (ps : List PointType) : JsonValue := .arr (ps.map posToJson)

/-- `json_val` on a list of lists of positions. -/
def pos2ToJson (ls : List LineStringType) : JsonValue :=
  .arr (ls.map posListToJson)

/-- `json_val` on a list of lists of lists of positions. -/
def pos3ToJson (ms : List PolygonType) : JsonValue := .arr (ms.map pos2ToJson)

/-- `json_val` on a bbox: a flat JSON array of numbers. -/
def bboxToJson (b : Bbox) : JsonValue := .arr (b.map .num)

/-- `json_val` on a crs: the opaque JSON object itself. -/
def crsToJson (c : Crs) : JsonValue := .obj c

mutual

/-- `ToJson for Value` (src/geometry.rs): total mapping of each of the
seven variants to its JSON payload. -/
def Value.to_json : Value → JsonValue
  | .Point p => posToJson p
  | .MultiPoint ps => posListToJson ps
  | .LineString ps => posListToJson ps
  | .MultiLineString ls => pos2ToJson ls
  | .Polygon rs => pos2ToJson rs
  | .MultiPolygon ms => pos3ToJson ms
  | .GeometryCollection gs => .arr (geomListToJson gs)

/-- `json_val` on a `Vec<Geometry>`: each geometry serializes to its
JSON object. -/
def geomListToJson : List Geometry → List JsonValue
  | [] => []
  | g :: gs => .obj (Geometry.to_json_object g) :: geomListToJson gs

/-- `From<&Geometry> for JsonObject` (src/geometry.rs): starts from an
empty map and inserts, in order, `crs` (when present), `bbox` (when
present), `type`, and the payload key. -/
def Geometry.to_json_object : Geometry → JsonObject
  | .mk bbox value crs =>
    let map : JsonObject := []
    let map : JsonObject :=
      match crs with
      | some c => minsert "crs" (crsToJson c) map
      | none => map
    let map : JsonObject :=
      match bbox with
      | some b => minsert "bbox" (bboxToJson b) map
      | none => map
    let map := minsert "type" (JsonValue.str (typeName value)) map
    minsert (payloadKey value) (Value.to_json value) map

end

/-- Modelled from the spec: a numeric leaf of a coordinates array; any
non-number fails with the malformed-coordinates error. -/
def as_num : JsonValue → Except Error ℚ
  | .num q => .ok q
  | _ => .error .MalformedCoordinates

/-- Element-wise decoding of a JSON array, short-circuiting on the
first failure (the `collect`-over-`Result` idiom). -/
def mapDecode (f : JsonValue → Except Error α) : List JsonValue → Except Error (List α)
  | [] => .ok []
  | x :: xs =>
    match f x with
    | .error e => .error e
    | .ok a =>
      match mapDecode f xs with
      | .error e => .error e
      | .ok as => .ok (a :: as)

/-- Modelled from the spec: decode a single position (an array of
numbers). -/
def decode_pos (j : JsonValue) : Except Error PointType :=
  match j with
  | .arr xs => mapDecode as_num xs
  | _ => .error .MalformedCoordinates

/-- Modelled from the spec: decode a flat list of positions. -/
def decode_pos_1d (j : JsonValue) : Except Error (List PointType) :=
  match j with
  | .arr xs => mapDecode decode_pos xs
  | _ => .error .MalformedCoordinates

/-- Modelled from the spec: decode a list of lists of positions. -/
def decode_pos_2d (j : JsonValue) : Except Error (List LineStringType) :=
  match j with
  | .arr xs => mapDecode decode_pos_1d xs
  | _ => .error .MalformedCoordinates

/-- Modelled from the spec: decode a list of lists of lists of
positions. -/
def decode_pos_3d (j : JsonValue) : Except Error (List PolygonType) :=
  match j with
  | .arr xs => mapDecode decode_pos_2d xs
  | _ => .error .MalformedCoordinates

/-- Modelled from the spec: `util::get_coords_one_pos` — the
`coordinates` key must be present and hold a single position. -/
def get_coords_one_pos (o : JsonObject) : Except Error PointType :=
  match jlookup o "coordinates" with
  | some v => decode_pos v
  | none => .error .MalformedCoordinates

/-- Modelled from the spec: `util::get_coords_1d_pos` — the
`coordinates` key must be present and hold a flat list of positions. -/
def get_coords_1d_pos (o : JsonObject) : Except Error (List PointType) :=
  match jlookup o "coordinates" with
  | some v => decode_pos_1d v
  | none => .error .MalformedCoordinates

/-- Modelled from the spec: `util::get_coords_2d_pos` — the
`coordinates` key must be present and hold a list of lists of
positions. -/
def get_coords_2d_pos (o : JsonObject) : Except Error (List LineStringType) :=
  match jlookup o "coordinates" with
  | some v => decode_pos_2d v
  | none => .error .MalformedCoordinates

/-- Modelled from the spec: `util::get_coords_3d_pos` — the
`coordinates` key must be present and hold a list of lists of lists of
positions. -/
def get_coords_3d_pos (o : JsonObject) : Except Error (List PolygonType) :=
  match jlookup o "coordinates" with
  | some v => decode_pos_3d v
  | none => .error .MalformedCoordinates

/-- Modelled from the spec: a numeric leaf of a bbox array; any
non-number fails with the malformed-bbox error. -/
def as_num_bbox : JsonValue → Except Error ℚ
  | .num q => .ok q
  | _ => .error .MalformedBbox

/-- Modelled from the spec: `util::get_bbox` — an absent `bbox` key is
not an error; a present key must hold a flat array of numbers, else the
malformed-bbox error. -/
def get_bbox (o : JsonObject) : Except Error (Option Bbox) :=
  match jlookup o "bbox" with
  | none => .ok none
  | some (.arr xs) =>
    match mapDecode as_num_bbox xs with
    | .ok b => .ok (some b)
    | .error e => .error e
  | some _ => .error .MalformedBbox

/-- Modelled from the spec: `util::get_crs` — an absent `crs` key is
not an error; a present key must hold a JSON object (kept opaque), else
the malformed-crs error. -/
def get_crs (o : JsonObject) : Except Error (Option Crs) :=
  match jlookup o "crs" with
  | none => .ok none
  | some (.obj fields) => .ok (some fields)
  | some _ => .error .MalformedCrs

/-- Modelled from the spec: the `expect_type!` macro — the `type` key
must be present and hold a string, else the invalid-type-field
error. -/
def expect_type (o : JsonObject) : Except Error String :=
  match jlookup o "type" with
  | some (.str s) => .ok s
  | _ => .error .InvalidTypeField

/-- Whether the `type` field of the object is present and is a string
(decidable side condition used to state claims about `expect_type`). -/
def type_field_is_string (o : JsonObject) : Bool :=
  match jlookup o "type" with
  | some (.str _) => true
  | _ => false

/-- A looked-up value is structurally smaller than the object
(termination measure for the recursive parse). -/
theorem jlookup_sizeOf_lt (o : JsonObject) (k : String) (v : JsonValue)
    (h : jlookup o k = some v) : sizeOf v < sizeOf o := by
  induction o with
  | nil => simp [jlookup] at h
  | cons p rest ih =>
    obtain ⟨k', v'⟩ := p
    simp only [jlookup] at h
    by_cases hk : k' = k
    · simp [hk] at h
      subst h
      simp
      omega
    · simp [hk] at h
      have := ih h
      simp
      omega

mutual

/-- `Geometry::from_object` (src/geometry.rs): read the `type`
discriminator, dispatch to the matching extraction, then attach the
optional bbox and crs; every failure short-circuits via `try!`. -/
def Geometry.from_object (o : JsonObject) : Except Error Geometry :=
  match expect_type o with
  | .error e => .error e
  | .ok ty =>
    match value_from_type ty o with
    | .error e => .error e
    | .ok value =>
      match get_bbox o with
      | .error e => .error e
      | .ok bbox =>
        match get_crs o with
        | .error e => .error e
        | .ok crs => .ok (.mk bbox value crs)
termination_by (sizeOf o, 3)

/-- The seven-way dispatch on the `type` string (the `match type_` in
`Geometry::from_object`); a string matching none of the seven canonical
names yields `Error::GeometryUnknownType`. -/
def value_from_type (ty : String) (o : JsonObject) : Except Error Value :=
  match ty with
  | "Point" => (get_coords_one_pos o).map Value.Point
  | "MultiPoint" => (get_coords_1d_pos o).map Value.MultiPoint
  | "LineString" => (get_coords_1d_pos o).map Value.LineString
  | "MultiLineString" => (get_coords_2d_pos o).map Value.MultiLineString
  | "Polygon" => (get_coords_2d_pos o).map Value.Polygon
  | "MultiPolygon" => (get_coords_3d_pos o).map Value.MultiPolygon
  | "GeometryCollection" => (get_geometries o).map Value.GeometryCollection
  | _ => .error Error.GeometryUnknownType
termination_by (sizeOf o, 2)

/-- Modelled from the spec: `util::get_geometries` — the `geometries`
key must be present and hold an array, each of whose elements is a JSON
object parsed recursively as a Geometry. -/
def get_geometries (o : JsonObject) : Except Error (List Geometry) :=
  match h : jlookup o "geometries" with
  | some (.arr xs) => parse_geometries xs
  | some _ => .error .MalformedCoordinates
  | none => .error .MalformedCoordinates
termination_by (sizeOf o, 1)
decreasing_by
  have hlt := jlookup_sizeOf_lt o "geometries" _ h
  simp at hlt
  exact Prod.Lex.left _ _ (by omega)

/-- Modelled from the spec: parse each element of a `geometries` array
as a Geometry object, short-circuiting on the first failure. -/
def parse_geometries (xs : List JsonValue) : Except Error (List Geometry) :=
  match xs with
  | [] => .ok []
  | x :: rest =>
    match x with
    | .obj fields =>
      match Geometry.from_object fields with
      | .error e => .error e
      | .ok g =>
        match parse_geometries rest with
        | .error e => .error e
        | .ok gs => .ok (g :: gs)
    | _ => .error .MalformedCoordinates
termination_by (sizeOf xs, 0)
decreasing_by
  all_goals simp
  · exact Prod.Lex.left _ _ (by omega)
  · exact Prod.Lex.left _ _ (by omega)

end

/-- Lookup after insertion: the inserted key maps to the new value, all
other keys are unaffected. -/
theorem jlookup_minsert (k k' : String) (v : JsonValue) (m : JsonObject) :
    jlookup (minsert k v m) k' = if k = k' then some v else jlookup m k' := by
  induction m with
  | nil => simp [minsert, jlookup]
  | cons p rest ih =>
    obtain ⟨k2, v2⟩ := p
    by_cases h1 : k < k2
    · simp [minsert, h1, jlookup]
    · by_cases h2 : k = k2
      · subst h2
        by_cases h3 : k = k'
        · simp [minsert, h1, h3, jlookup]
        · simp [minsert, h1, h3, jlookup]
      · by_cases h3 : k2 = k'
        · have h4 : ¬ k = k' := h3 ▸ h2
          have h5 : ¬ k < k' := h3 ▸ h1
          simp [minsert, h1, h2, h3, h4, h5, jlookup, ih]
        · simp [minsert, h1, h2, h3, jlookup, ih]

def opt_minsert (k : String) (j : Option JsonValue) (m : JsonObject) : JsonObject :=
  match j with
  | some v => minsert k v m
  | none => m

theorem to_json_object_eq (b : Option Bbox) (v : Value) (c : Option Crs) :
    Geometry.to_json_object (.mk b v c) =
      minsert (payloadKey v) (Value.to_json v)
        (minsert "type" (JsonValue.str (typeName v))
          (opt_minsert "bbox" (b.map bboxToJson)
            (opt_minsert "crs" (c.map crsToJson) []))) := by
  cases b <;> cases c <;> simp [Geometry.to_json_object, opt_minsert]

theorem payloadKey_ne (v : Value) :
    payloadKey v ≠ "type" ∧ payloadKey v ≠ "bbox" ∧ payloadKey v ≠ "crs" := by
  cases v <;> simp [payloadKey]

theorem jlookup_tjo_type (b : Option Bbox) (v : Value) (c : Option Crs) :
    jlookup (Geometry.to_json_object (.mk b v c)) "type" =
      some (JsonValue.str (typeName v)) := by
  rw [to_json_object_eq, jlookup_minsert, jlookup_minsert]
  simp [(payloadKey_ne v).1]

theorem jlookup_tjo_payload (b : Option Bbox) (v : Value) (c : Option Crs) :
    jlookup (Geometry.to_json_object (.mk b v c)) (payloadKey v) =
      some (Value.to_json v) := by
  rw [to_json_object_eq, jlookup_minsert]
  simp

theorem jlookup_tjo_bbox (b : Option Bbox) (v : Value) (c : Option Crs) :
    jlookup (Geometry.to_json_object (.mk b v c)) "bbox" =
      Option.map bboxToJson b := by
  rw [to_json_object_eq, jlookup_minsert, jlookup_minsert]
  cases b <;> cases c <;>
    simp [opt_minsert, jlookup_minsert, jlookup, (payloadKey_ne v).2.1]

theorem jlookup_tjo_crs (b : Option Bbox) (v : Value) (c : Option Crs) :
    jlookup (Geometry.to_json_object (.mk b v c)) "crs" =
      Option.map crsToJson c := by
  rw [to_json_object_eq, jlookup_minsert, jlookup_minsert]
  cases b <;> cases c <;>
    simp [opt_minsert, jlookup_minsert, jlookup, (payloadKey_ne v).2.2]

theorem mapDecode_ok {α : Type} (f : JsonValue → Except Error α) (enc : α → JsonValue)
    (hf : ∀ j a, f j = Except.ok a ↔ j = enc a) :
    ∀ (js : List JsonValue) (l : List α),
      mapDecode f js = .ok l ↔ js = l.map enc := by
  intro js
  induction js with
  | nil =>
    intro l
    constructor
    · intro h
      simp [mapDecode] at h
      subst h
      simp
    · intro h
      have hl : l = [] := by cases l <;> simp_all
      subst hl
      simp [mapDecode]
  | cons x xs ih =>
    intro l
    constructor
    · intro h
      simp only [mapDecode] at h
      cases hfx : f x with
      | error e => rw [hfx] at h; simp at h
      | ok a =>
        rw [hfx] at h
        cases hm : mapDecode f xs with
        | error e => rw [hm] at h; simp at h
        | ok l2 =>
          rw [hm] at h
          simp at h
          subst h
          simp only [List.map_cons]
          rw [← (hf x a).1 hfx, ← (ih l2).1 hm]
    · intro h
      cases l with
      | nil => simp at h
      | cons a l2 =>
        simp only [List.map_cons, List.cons.injEq] at h
        obtain ⟨hx, hxs⟩ := h
        simp only [mapDecode]
        rw [(hf x a).2 hx, (ih l2).2 hxs]

theorem as_num_ok (j : JsonValue) (q : ℚ) :
    as_num j = .ok q ↔ j = .num q := by
  cases j <;> simp [as_num]

theorem as_num_bbox_ok (j : JsonValue) (q : ℚ) :
    as_num_bbox j = .ok q ↔ j = .num q := by
  cases j <;> simp [as_num_bbox]

theorem decode_pos_ok (j : JsonValue) (p : PointType) :
    decode_pos j = .ok p ↔ j = posToJson p := by
  cases j <;> simp [decode_pos, posToJson, mapDecode_ok as_num JsonValue.num as_num_ok]

theorem decode_pos_1d_ok (j : JsonValue) (ps : List PointType) :
    decode_pos_1d j = .ok ps ↔ j = posListToJson ps := by
  cases j <;> simp [decode_pos_1d, posListToJson, mapDecode_ok decode_pos posToJson decode_pos_ok]

theorem decode_pos_2d_ok (j : JsonValue) (ls : List LineStringType) :
    decode_pos_2d j = .ok ls ↔ j = pos2ToJson ls := by
  cases j <;> simp [decode_pos_2d, pos2ToJson, mapDecode_ok decode_pos_1d posListToJson decode_pos_1d_ok]

theorem decode_pos_3d_ok (j : JsonValue) (ms : List PolygonType) :
    decode_pos_3d j = .ok ms ↔ j = pos3ToJson ms := by
  cases j <;> simp [decode_pos_3d, pos3ToJson, mapDecode_ok decode_pos_2d pos2ToJson decode_pos_2d_ok]

theorem get_coords_one_pos_ok (o : JsonObject) (p : PointType) :
    get_coords_one_pos o = .ok p ↔ jlookup o "coordinates" = some (posToJson p) := by
  cases hj : jlookup o "coordinates" <;> simp [get_coords_one_pos, hj, decode_pos_ok]

theorem get_coords_1d_pos_ok (o : JsonObject) (ps : List PointType) :
    get_coords_1d_pos o = .ok ps ↔ jlookup o "coordinates" = some (posListToJson ps) := by
  cases hj : jlookup o "coordinates" <;> simp [get_coords_1d_pos, hj, decode_pos_1d_ok]

theorem get_coords_2d_pos_ok (o : JsonObject) (ls : List LineStringType) :
    get_coords_2d_pos o = .ok ls ↔ jlookup o "coordinates" = some (pos2ToJson ls) := by
  cases hj : jlookup o "coordinates" <;> simp [get_coords_2d_pos, hj, decode_pos_2d_ok]

theorem get_coords_3d_pos_ok (o : JsonObject) (ms : List PolygonType) :
    get_coords_3d_pos o = .ok ms ↔ jlookup o "coordinates" = some (pos3ToJson ms) := by
  cases hj : jlookup o "coordinates" <;> simp [get_coords_3d_pos, hj, decode_pos_3d_ok]

theorem expect_type_tjo (b : Option Bbox) (v : Value) (c : Option Crs) :
    expect_type (Geometry.to_json_object (.mk b v c)) = .ok (typeName v) := by
  simp [expect_type, jlookup_tjo_type]

theorem get_bbox_tjo (b : Option Bbox) (v : Value) (c : Option Crs) :
    get_bbox (Geometry.to_json_object (.mk b v c)) = .ok b := by
  cases b with
  | none => simp [get_bbox, jlookup_tjo_bbox]
  | some bb =>
    have h := jlookup_tjo_bbox (some bb) v c
    have hmap : mapDecode as_num_bbox (bb.map JsonValue.num) = .ok bb :=
      (mapDecode_ok as_num_bbox JsonValue.num as_num_bbox_ok (bb.map JsonValue.num) bb).2 rfl
    simp [get_bbox, h, bboxToJson, hmap]

theorem get_crs_tjo (b : Option Bbox) (v : Value) (c : Option Crs) :
    get_crs (Geometry.to_json_object (.mk b v c)) = .ok c := by
  cases c with
  | none => simp [get_crs, jlookup_tjo_crs]
  | some cc =>
    have h := jlookup_tjo_crs b v (some cc)
    simp [get_crs, h, crsToJson]

mutual

theorem value_from_type_tjo (b : Option Bbox) (v : Value) (c : Option Crs) :
    value_from_type (typeName v) (Geometry.to_json_object (.mk b v c)) = .ok v := by
  cases v with
  | Point p =>
    have hp := jlookup_tjo_payload b (.Point p) c
    simp only [payloadKey, Value.to_json] at hp
    simp [typeName, value_from_type, Except.map, (get_coords_one_pos_ok _ p).2 hp]
  | MultiPoint ps =>
    have hp := jlookup_tjo_payload b (.MultiPoint ps) c
    simp only [payloadKey, Value.to_json] at hp
    simp [typeName, value_from_type, Except.map, (get_coords_1d_pos_ok _ ps).2 hp]
  | LineString ps =>
    have hp := jlookup_tjo_payload b (.LineString ps) c
    simp only [payloadKey, Value.to_json] at hp
    simp [typeName, value_from_type, Except.map, (get_coords_1d_pos_ok _ ps).2 hp]
  | MultiLineString ls =>
    have hp := jlookup_tjo_payload b (.MultiLineString ls) c
    simp only [payloadKey, Value.to_json] at hp
    simp [typeName, value_from_type, Except.map, (get_coords_2d_pos_ok _ ls).2 hp]
  | Polygon rs =>
    have hp := jlookup_tjo_payload b (.Polygon rs) c
    simp only [payloadKey, Value.to_json] at hp
    simp [typeName, value_from_type, Except.map, (get_coords_2d_pos_ok _ rs).2 hp]
  | MultiPolygon ms =>
    have hp := jlookup_tjo_payload b (.MultiPolygon ms) c
    simp only [payloadKey, Value.to_json] at hp
    simp [typeName, value_from_type, Except.map, (get_coords_3d_pos_ok _ ms).2 hp]
  | GeometryCollection gs =>
    have hp := jlookup_tjo_payload b (.GeometryCollection gs) c
    simp only [payloadKey, Value.to_json] at hp
    have hg : get_geometries
        (Geometry.to_json_object (.mk b (.GeometryCollection gs) c)) = .ok gs := by
      simp only [get_geometries]
      split <;> simp_all [parse_geometries_roundtrip gs]
    simp [typeName, value_from_type, Except.map, hg]
termination_by (sizeOf v, 0)

theorem parse_geometries_roundtrip (gs : List Geometry) :
    parse_geometries (geomListToJson gs) = .ok gs := by
  cases gs with
  | nil => simp [geomListToJson, parse_geometries]
  | cons g rest =>
    simp [geomListToJson, parse_geometries, geometry_roundtrip g,
      parse_geometries_roundtrip rest]
termination_by (sizeOf gs, 0)

theorem geometry_roundtrip (g : Geometry) :
    Geometry.from_object (Geometry.to_json_object g) = .ok g := by
  obtain ⟨b, v, c⟩ := g
  rw [Geometry.from_object]
  simp [expect_type_tjo, value_from_type_tjo b v c, get_bbox_tjo, get_crs_tjo]
termination_by (sizeOf g, 1)

end

theorem value_from_type_unknown (ty : String) (o : JsonObject)
    (h : ty ∉ ["Point", "MultiPoint", "LineString", "MultiLineString",
      "Polygon", "MultiPolygon", "GeometryCollection"]) :
    value_from_type ty o = .error .GeometryUnknownType := by
  simp only [List.mem_cons, not_or] at h
  rw [value_from_type] <;> intro hc <;> simp_all

theorem from_object_expect_error (o : JsonObject) (e : Error)
    (h : expect_type o = .error e) : Geometry.from_object o = .error e := by
  rw [Geometry.from_object]
  simp [h]

theorem from_object_value_error (o : JsonObject) (ty : String) (e : Error)
    (ht : expect_type o = .ok ty) (hv : value_from_type ty o = .error e) :
    Geometry.from_object o = .error e := by
  rw [Geometry.from_object]
  simp [ht, hv]

theorem from_object_bbox_error (o : JsonObject) (ty : String) (v : Value) (e : Error)
    (ht : expect_type o = .ok ty) (hv : value_from_type ty o = .ok v)
    (hb : get_bbox o = .error e) : Geometry.from_object o = .error e := by
  rw [Geometry.from_object]
  simp [ht, hv, hb]

theorem from_object_crs_error (o : JsonObject) (ty : String) (v : Value)
    (b : Option Bbox) (e : Error)
    (ht : expect_type o = .ok ty) (hv : value_from_type ty o = .ok v)
    (hb : get_bbox o = .ok b) (hc : get_crs o = .error e) :
    Geometry.from_object o = .error e := by
  rw [Geometry.from_object]
  simp [ht, hv, hb, hc]

theorem from_object_ok_inv (o : JsonObject) (g : Geometry)
    (h : Geometry.from_object o = .ok g) :
    ∃ ty, expect_type o = .ok ty ∧ value_from_type ty o = .ok g.value ∧
      get_bbox o = .ok g.bbox ∧ get_crs o = .ok g.crs := by
  rw [Geometry.from_object] at h
  cases ht : expect_type o with
  | error e => simp only [ht] at h; exact absurd h (by simp)
  | ok ty =>
    simp only [ht] at h
    cases hv : value_from_type ty o with
    | error e => simp only [hv] at h; exact absurd h (by simp)
    | ok value =>
      simp only [hv] at h
      cases hb : get_bbox o with
      | error e => simp only [hb] at h; exact absurd h (by simp)
      | ok bbox =>
        simp only [hb] at h
        cases hc : get_crs o with
        | error e => simp only [hc] at h; exact absurd h (by simp)
        | ok crs =>
          simp only [hc, Except.ok.injEq] at h
          subst h
          exact ⟨ty, rfl, by simp [Geometry.value, hv], by simp [Geometry.bbox],
            by simp [Geometry.crs]⟩

theorem get_geometries_eq (o : JsonObject) :
    get_geometries o =
      match jlookup o "geometries" with
      | some (.arr xs) => parse_geometries xs
      | some _ => .error .MalformedCoordinates
      | none => .error .MalformedCoordinates := by
  rw [get_geometries]
  split
  · rename_i xs heq
    rw [heq]
  · rename_i v hne heq
    rw [heq]
    cases v with
    | arr xs => exact absurd rfl (hne xs)
    | null => rfl
    | bool b => rfl
    | num q => rfl
    | str s => rfl
    | obj fs => rfl
  · rename_i heq
    rw [heq]

theorem get_geometries_ok (o : JsonObject) (gs : List Geometry) :
    get_geometries o = .ok gs ↔
      ∃ js, jlookup o "geometries" = some (.arr js) ∧ parse_geometries js = .ok gs := by
  rw [get_geometries_eq]
  cases hj : jlookup o "geometries" with
  | none => simp
  | some jv => cases jv <;> simp

theorem value_from_type_congr (ty : String) (o o' : JsonObject)
    (hc : jlookup o "coordinates" = jlookup o' "coordinates")
    (hg : jlookup o "geometries" = jlookup o' "geometries") :
    value_from_type ty o = value_from_type ty o' := by
  have e1 : get_coords_one_pos o = get_coords_one_pos o' := by
    simp [get_coords_one_pos, hc]
  have e2 : get_coords_1d_pos o = get_coords_1d_pos o' := by
    simp [get_coords_1d_pos, hc]
  have e3 : get_coords_2d_pos o = get_coords_2d_pos o' := by
    simp [get_coords_2d_pos, hc]
  have e4 : get_coords_3d_pos o = get_coords_3d_pos o' := by
    simp [get_coords_3d_pos, hc]
  have e5 : get_geometries o = get_geometries o' := by
    rw [get_geometries_eq, get_geometries_eq, hg]
  by_cases h1 : ty = "Point"
  · subst h1; simp [value_from_type, e1]
  by_cases h2 : ty = "MultiPoint"
  · subst h2; simp [value_from_type, e2]
  by_cases h3 : ty = "LineString"
  · subst h3; simp [value_from_type, e2]
  by_cases h4 : ty = "MultiLineString"
  · subst h4; simp [value_from_type, e3]
  by_cases h5 : ty = "Polygon"
  · subst h5; simp [value_from_type, e3]
  by_cases h6 : ty = "MultiPolygon"
  · subst h6; simp [value_from_type, e4]
  by_cases h7 : ty = "GeometryCollection"
  · subst h7; simp [value_from_type, e5]
  rw [value_from_type_unknown ty o (by simp [h1, h2, h3, h4, h5, h6, h7]),
    value_from_type_unknown ty o' (by simp [h1, h2, h3, h4, h5, h6, h7])]

theorem from_object_congr (o o' : JsonObject)
    (ht : jlookup o "type" = jlookup o' "type")
    (hc : jlookup o "coordinates" = jlookup o' "coordinates")
    (hg : jlookup o "geometries" = jlookup o' "geometries")
    (hb : jlookup o "bbox" = jlookup o' "bbox")
    (hr : jlookup o "crs" = jlookup o' "crs") :
    Geometry.from_object o = Geometry.from_object o' := by
  have hexp : expect_type o = expect_type o' := by simp [expect_type, ht]
  have hbb : get_bbox o = get_bbox o' := by simp [get_bbox, hb]
  have hcc : get_crs o = get_crs o' := by simp [get_crs, hr]
  rw [Geometry.from_object.eq_def, Geometry.from_object.eq_def, hexp, hbb, hcc]
  cases hexp' : expect_type o' with
  | error e => rfl
  | ok ty => simp [value_from_type_congr ty o o' hc hg]

theorem minsert_keys_sub (k : String) (v : JsonValue) (m : JsonObject) :
    ∀ x ∈ (minsert k v m).map Prod.fst, x = k ∨ x ∈ m.map Prod.fst := by
  induction m with
  | nil => simp [minsert]
  | cons p rest ih =>
    obtain ⟨k2, v2⟩ := p
    intro x hx
    by_cases h1 : k < k2
    · simp [minsert, h1] at hx
      rcases hx with h | h | h <;> simp [h]
    · by_cases h2 : k = k2
      · simp [minsert, h1, h2] at hx
        rcases hx with h | h <;> simp [h]
      · simp [minsert, h1, h2] at hx
        rcases hx with h | h
        · simp [h]
        · rcases ih x (by simpa using h) with h3 | h3
          · simp [h3]
          · simp [h3]

theorem minsert_sorted (k : String) (v : JsonValue) (m : JsonObject)
    (h : (m.map Prod.fst).Pairwise (· < ·)) :
    ((minsert k v m).map Prod.fst).Pairwise (· < ·) := by
  induction m with
  | nil => simp [minsert]
  | cons p rest ih =>
    obtain ⟨k2, v2⟩ := p
    simp only [List.map_cons, List.pairwise_cons] at h
    obtain ⟨hall, hrest⟩ := h
    by_cases h1 : k < k2
    · simp only [minsert, if_pos h1, List.map_cons, List.pairwise_cons]
      refine ⟨?_, hall, hrest⟩
      intro x hx
      simp at hx
      rcases hx with h | h
      · subst h; exact h1
      · exact lt_trans h1 (hall x (by simpa using h))
    · by_cases h2 : k = k2
      · subst h2
        rw [minsert, if_neg h1, if_pos rfl]
        simp only [List.map_cons, List.pairwise_cons]
        exact ⟨hall, hrest⟩
      · have h3 : k2 < k := by
          rcases lt_trichotomy k k2 with h | h | h
          · exact absurd h h1
          · exact absurd h h2
          · exact h
        simp only [minsert, if_neg h1, if_neg h2, List.map_cons, List.pairwise_cons]
        refine ⟨?_, ih hrest⟩
        intro x hx
        rcases minsert_keys_sub k v rest x hx with h | h
        · subst h; exact h3
        · exact hall x h

theorem opt_minsert_sorted (k : String) (j : Option JsonValue) (m : JsonObject)
    (h : (m.map Prod.fst).Pairwise (· < ·)) :
    ((opt_minsert k j m).map Prod.fst).Pairwise (· < ·) := by
  cases j with
  | none => simpa [opt_minsert] using h
  | some v => exact minsert_sorted k v m h

theorem tjo_sorted (g : Geometry) :
    ((Geometry.to_json_object g).map Prod.fst).Pairwise (· < ·) := by
  obtain ⟨b, v, c⟩ := g
  rw [to_json_object_eq]
  exact minsert_sorted _ _ _ (minsert_sorted _ _ _
    (opt_minsert_sorted _ _ _ (opt_minsert_sorted _ _ _ (by simp))))

def otherKey (v : Value) : String :=
  match v with
  | .GeometryCollection _ => "coordinates"
  | _ => "geometries"

theorem jlookup_tjo_other (b : Option Bbox) (v : Value) (c : Option Crs) :
    jlookup (Geometry.to_json_object (.mk b v c)) (otherKey v) = none := by
  rw [to_json_object_eq, jlookup_minsert, jlookup_minsert]
  cases v <;> cases b <;> cases c <;>
    simp [payloadKey, otherKey, opt_minsert, jlookup_minsert, jlookup]

theorem except_map_ok_iff {α β : Type} (f : α → β) (e : Except Error α) (b : β) :
    e.map f = .ok b ↔ ∃ a, e = .ok a ∧ b = f a := by
  cases e <;> simp [Except.map] <;> aesop

theorem coord_branch_iff {α : Type} (get : JsonObject → Except Error α)
    (enc : α → JsonValue) (con : α → Value) (o : JsonObject) (v : Value)
    (hget : ∀ p, get o = .ok p ↔ jlookup o "coordinates" = some (enc p)) :
    Except.map con (get o) = .ok v ↔
      ∃ p, v = con p ∧ jlookup o "coordinates" = some (enc p) := by
  rw [except_map_ok_iff]
  constructor
  · rintro ⟨a, ha, hv⟩
    exact ⟨a, hv, (hget a).1 ha⟩
  · rintro ⟨p, hv, hl⟩
    exact ⟨p, (hget p).2 hl, hv⟩

/-- Claim C1: for every valid Geometry of each of the seven shapes,
parsing the JSON object produced by serializing it yields an equal
Geometry: from_object (JsonObject::from (and g)) = Ok g. -/
theorem c1_round_trip (g : Geometry) :
    Geometry.from_object (Geometry.to_json_object g) = .ok g :=
  geometry_roundtrip g

/-- Claim C2: for every JSON object whose type field is a string that is
none of the seven canonical names, from_object returns
Error::GeometryUnknownType (and, being a total function, never
panics). -/
theorem c2_unknown_type (o : JsonObject) (s : String)
    (ht : jlookup o "type" = some (.str s))
    (hs : s ∉ ["Point", "MultiPoint", "LineString", "MultiLineString",
      "Polygon", "MultiPolygon", "GeometryCollection"]) :
    Geometry.from_object o = .error .GeometryUnknownType := by
  have hexp : expect_type o = .ok s := by simp [expect_type, ht]
  exact from_object_value_error o s _ hexp (value_from_type_unknown s o hs)

/-- Witness for C2 at the concrete object with type Circle. -/
theorem c2_unknown_type_witness :
    Geometry.from_object [("type", JsonValue.str "Circle")] =
      .error .GeometryUnknownType :=
  c2_unknown_type [("type", JsonValue.str "Circle")] "Circle" rfl (by decide)

/-- Claim C3: for every JSON object with no type key, or whose type
value is not a string, from_object fails with Error::InvalidTypeField
(regardless of any coordinates content, so before any coordinate
extraction can influence the result). -/
theorem c3_invalid_type_field (o : JsonObject)
    (h : type_field_is_string o = false) :
    Geometry.from_object o = .error .InvalidTypeField := by
  have hexp : expect_type o = .error .InvalidTypeField := by
    revert h
    unfold type_field_is_string expect_type
    cases hj : jlookup o "type" with
    | none => intro h; rfl
    | some jv => cases jv <;> simp
  exact from_object_expect_error o _ hexp

/-- Witness for C3 at a concrete object with no type key. -/
theorem c3_invalid_type_field_witness :
    Geometry.from_object [("coordinates", JsonValue.arr [])] =
      .error .InvalidTypeField :=
  c3_invalid_type_field [("coordinates", JsonValue.arr [])] (by decide)

/-- Claim C4: the dispatch on the type string invokes the extraction of
exactly the required nesting depth for each canonical name: Point a
single position, MultiPoint and LineString a flat list of positions,
MultiLineString and Polygon a list of lists, MultiPolygon a list of
lists of lists, and GeometryCollection a list of nested Geometry
parses. -/
theorem c4_dispatch_depth (o : JsonObject) (v : Value) :
    (value_from_type "Point" o = .ok v ↔
      ∃ p, v = Value.Point p ∧ jlookup o "coordinates" = some (posToJson p)) ∧
    (value_from_type "MultiPoint" o = .ok v ↔
      ∃ ps, v = Value.MultiPoint ps ∧
        jlookup o "coordinates" = some (posListToJson ps)) ∧
    (value_from_type "LineString" o = .ok v ↔
      ∃ ps, v = Value.LineString ps ∧
        jlookup o "coordinates" = some (posListToJson ps)) ∧
    (value_from_type "MultiLineString" o = .ok v ↔
      ∃ ls, v = Value.MultiLineString ls ∧
        jlookup o "coordinates" = some (pos2ToJson ls)) ∧
    (value_from_type "Polygon" o = .ok v ↔
      ∃ rs, v = Value.Polygon rs ∧
        jlookup o "coordinates" = some (pos2ToJson rs)) ∧
    (value_from_type "MultiPolygon" o = .ok v ↔
      ∃ ms, v = Value.MultiPolygon ms ∧
        jlookup o "coordinates" = some (pos3ToJson ms)) ∧
    (value_from_type "GeometryCollection" o = .ok v ↔
      ∃ gs js, v = Value.GeometryCollection gs ∧
        jlookup o "geometries" = some (.arr js) ∧
        parse_geometries js = .ok gs) := by
  refine ⟨?_, ?_, ?_, ?_, ?_, ?_, ?_⟩
  · rw [value_from_type]
    exact coord_branch_iff get_coords_one_pos posToJson Value.Point o v
      (get_coords_one_pos_ok o)
  · rw [value_from_type]
    exact coord_branch_iff get_coords_1d_pos posListToJson Value.MultiPoint o v
      (get_coords_1d_pos_ok o)
  · rw [value_from_type]
    exact coord_branch_iff get_coords_1d_pos posListToJson Value.LineString o v
      (get_coords_1d_pos_ok o)
  · rw [value_from_type]
    exact coord_branch_iff get_coords_2d_pos pos2ToJson Value.MultiLineString o v
      (get_coords_2d_pos_ok o)
  · rw [value_from_type]
    exact coord_branch_iff get_coords_2d_pos pos2ToJson Value.Polygon o v
      (get_coords_2d_pos_ok o)
  · rw [value_from_type]
    exact coord_branch_iff get_coords_3d_pos pos3ToJson Value.MultiPolygon o v
      (get_coords_3d_pos_ok o)
  · rw [value_from_type, except_map_ok_iff]
    constructor
    · rintro ⟨gs, hg, hv⟩
      obtain ⟨js, hj, hp⟩ := (get_geometries_ok o gs).1 hg
      exact ⟨gs, js, hv, hj, hp⟩
    · rintro ⟨gs, js, hv, hj, hp⟩
      exact ⟨gs, (get_geometries_ok o gs).2 ⟨js, hj, hp⟩, hv⟩

/-- Claim C5: the serialized object stores the payload under the key
geometries exactly when the value is a GeometryCollection, and under
the key coordinates for the other six variants; the unused payload key
is absent. -/
theorem c5_payload_key (g : Geometry) :
    jlookup (Geometry.to_json_object g) (payloadKey g.value) =
      some (Value.to_json g.value) ∧
    jlookup (Geometry.to_json_object g) (otherKey g.value) = none ∧
    (payloadKey g.value = "geometries" ↔
      ∃ gs, g.value = Value.GeometryCollection gs) ∧
    (payloadKey g.value = "coordinates" ↔
      ¬ ∃ gs, g.value = Value.GeometryCollection gs) := by
  obtain ⟨b, v, c⟩ := g
  refine ⟨?_, ?_, ?_, ?_⟩
  · simpa [Geometry.value] using jlookup_tjo_payload b v c
  · simpa [Geometry.value] using jlookup_tjo_other b v c
  · cases v <;> simp [payloadKey, Geometry.value]
  · cases v <;> simp [payloadKey, Geometry.value]

/-- Claim C6: for every Geometry with bbox present and crs absent, the
serialized object carries a bbox key and no crs key (key absence, not
an explicit null), and parsing it back preserves the bbox value and
yields an absent crs. -/
theorem c6_metadata_preserved (b : Bbox) (v : Value) :
    jlookup (Geometry.to_json_object (.mk (some b) v none)) "bbox" =
      some (bboxToJson b) ∧
    jlookup (Geometry.to_json_object (.mk (some b) v none)) "crs" = none ∧
    Geometry.from_object (Geometry.to_json_object (.mk (some b) v none)) =
      .ok (.mk (some b) v none) := by
  refine ⟨?_, ?_, geometry_roundtrip _⟩
  · simpa using jlookup_tjo_bbox (some b) v none
  · simpa using jlookup_tjo_crs (some b) v none

/-- Claim C7: serialization is total with no error path: every Value of
each of the seven variants maps to a JSON value (always an array), and
every Geometry maps to a JSON object (which always carries a type
key). -/
theorem c7_serialization_total :
    (∀ v : Value, ∃ xs : List JsonValue, Value.to_json v = .arr xs) ∧
    (∀ g : Geometry, jlookup (Geometry.to_json_object g) "type" =
      some (JsonValue.str (typeName g.value))) := by
  constructor
  · intro v
    cases v <;>
      exact ⟨_, rfl⟩
  · intro g
    obtain ⟨b, v, c⟩ := g
    simpa [Geometry.value] using jlookup_tjo_type b v c

/-- Claim C8: every failing step of from_object (type lookup, value
extraction, bbox extraction, crs extraction) propagates its error to
the caller unchanged, and a successful parse implies every step
succeeded and supplied the corresponding field: construction is
all-or-nothing. -/
theorem c8_short_circuit (o : JsonObject) (e : Error) :
    (expect_type o = .error e → Geometry.from_object o = .error e) ∧
    (∀ ty, expect_type o = .ok ty → value_from_type ty o = .error e →
      Geometry.from_object o = .error e) ∧
    (∀ ty v, expect_type o = .ok ty → value_from_type ty o = .ok v →
      get_bbox o = .error e → Geometry.from_object o = .error e) ∧
    (∀ ty v b, expect_type o = .ok ty → value_from_type ty o = .ok v →
      get_bbox o = .ok b → get_crs o = .error e →
      Geometry.from_object o = .error e) ∧
    (∀ g, Geometry.from_object o = .ok g →
      ∃ ty, expect_type o = .ok ty ∧ value_from_type ty o = .ok g.value ∧
        get_bbox o = .ok g.bbox ∧ get_crs o = .ok g.crs) :=
  ⟨from_object_expect_error o e,
   fun ty ht hv => from_object_value_error o ty e ht hv,
   fun ty v ht hv hb => from_object_bbox_error o ty v e ht hv hb,
   fun ty v b ht hv hb hc => from_object_crs_error o ty v b e ht hv hb hc,
   fun g h => from_object_ok_inv o g h⟩

/-- Witness for C8: an object typed Point with no coordinates key fails
with the coordinate-extraction error, propagated unchanged. -/
theorem c8_short_circuit_witness :
    Geometry.from_object [("type", JsonValue.str "Point")] =
      .error .MalformedCoordinates :=
  (c8_short_circuit [("type", JsonValue.str "Point")] .MalformedCoordinates).2.1
    "Point" rfl (by rw [value_from_type]; rfl)

/-- Claim C9: serialization builds the object by inserting, in order,
crs, bbox, type and the payload key, each only when present, and the
resulting key order is deterministic (strictly sorted, as a BTreeMap
iterates). -/
theorem c9_insertion_order (g : Geometry) :
    Geometry.to_json_object g =
      minsert (payloadKey g.value) (Value.to_json g.value)
        (minsert "type" (JsonValue.str (typeName g.value))
          (opt_minsert "bbox" (Option.map bboxToJson g.bbox)
            (opt_minsert "crs" (Option.map crsToJson g.crs) []))) ∧
    ((Geometry.to_json_object g).map Prod.fst).Pairwise (· < ·) := by
  obtain ⟨b, v, c⟩ := g
  exact ⟨by simpa [Geometry.value, Geometry.bbox, Geometry.crs] using
    to_json_object_eq b v c, tjo_sorted _⟩

/-- Claim C10: from_object reads only the keys type, coordinates,
geometries, bbox and crs: inserting any other key into an object that
parses successfully leaves the parse result unchanged. -/
theorem c10_unknown_keys_ignored (o : JsonObject) (g : Geometry)
    (k : String) (v : JsonValue)
    (hk : k ∉ ["type", "coordinates", "geometries", "bbox", "crs"])
    (h : Geometry.from_object o = .ok g) :
    Geometry.from_object (minsert k v o) = .ok g := by
  simp only [List.mem_cons, not_or] at hk
  obtain ⟨h1, h2, h3, h4, h5, _⟩ := hk
  have e1 : jlookup (minsert k v o) "type" = jlookup o "type" := by
    rw [jlookup_minsert]; simp [h1]
  have e2 : jlookup (minsert k v o) "coordinates" = jlookup o "coordinates" := by
    rw [jlookup_minsert]; simp [h2]
  have e3 : jlookup (minsert k v o) "geometries" = jlookup o "geometries" := by
    rw [jlookup_minsert]; simp [h3]
  have e4 : jlookup (minsert k v o) "bbox" = jlookup o "bbox" := by
    rw [jlookup_minsert]; simp [h4]
  have e5 : jlookup (minsert k v o) "crs" = jlookup o "crs" := by
    rw [jlookup_minsert]; simp [h5]
  rw [from_object_congr (minsert k v o) o e1 e2 e3 e4 e5]
  exact h

/-- Witness for C10: adding a name key to a serialized Point leaves the
parse result unchanged. -/
theorem c10_unknown_keys_ignored_witness :
    Geometry.from_object (minsert "name" (JsonValue.str "x")
        (Geometry.to_json_object (Geometry.mk none (Value.Point [1, 2]) none))) =
      .ok (Geometry.mk none (Value.Point [1, 2]) none) :=
  c10_unknown_keys_ignored _ _ "name" (JsonValue.str "x") (by decide)
    (geometry_roundtrip _)
